import Mathlib

/-!
Verification development for the binance-trading-bot core: the indicator
engine (app/data/indicators.py), the signal generator
(TechnicalIndicators.get_combined_signal and
MACrossoverStrategy.should_buy / should_sell), the risk manager
(app/risk/manager.py) and the backtest simulator (TradingBot.backtest in
app/bot.py).  Prices and balances are embedded as exact rationals; the
Python source computes in IEEE floats, but every property below is about
the algebraic structure of the computations, which the embedding mirrors
operation for operation.
-/

/-- Configuration values read by the core from `get_config()` (app/config.py).
Only the `trading.*` and `indicators.*` fields consumed by the risk manager,
the signal generator and the backtest are carried.  Defaults in config.py:
short 20, long 50, rsi 14, rsi_buy_threshold 50, rsi_sell_threshold 70,
stop_loss 5, take_profit 10, investment 100, risk 50, max_position 10. -/
structure Config where
  short_ma_period : Nat
  long_ma_period : Nat
  rsi_period : Nat
  rsi_buy_threshold : ℚ
  rsi_sell_threshold : ℚ
  stop_loss_percentage : ℚ
  take_profit_percentage : ℚ
  investment_amount : ℚ
  risk_percentage : ℚ
  max_position_size : ℚ
deriving DecidableEq

/-- The default configuration produced by config.py when no environment
overrides are present. -/
def defaultConfig : Config :=
  { short_ma_period := 20
    long_ma_period := 50
    rsi_period := 14
    rsi_buy_threshold := 50
    rsi_sell_threshold := 70
    stop_loss_percentage := 5
    take_profit_percentage := 10
    investment_amount := 100
    risk_percentage := 50
    max_position_size := 10 }

/-- One OHLCV bar (a row of the collector's DataFrame).  `timestamp` models
the DatetimeIndex entry (`row.name`); prices and volume are rationals. -/
structure Bar where
  timestamp : Int
  open_price : ℚ
  high : ℚ
  low : ℚ
  close : ℚ
  volume : ℚ
deriving DecidableEq

/-- A row of `df_with_indicators` after `dropna`: the bar together with the
indicator columns the signal rules read (`ma_{short}`, `ma_{long}`, `rsi`).
The MACD and Bollinger columns also present in the DataFrame are never read
by any signal rule (spec 4.1 marks them display-only), so they are tracked
only through the definedness model in `augAt` below. -/
structure AugBar where
  bar : Bar
  ma_short : ℚ
  ma_long : ℚ
  rsi : ℚ
deriving DecidableEq

/-- TechnicalIndicators.get_ma_crossover_signal (indicators.py 68-102)
applied to the last two rows of the DataFrame, here `prev` and `curr`:
1 on a bullish crossover, -1 on a bearish crossover, 0 otherwise. -/
def get_ma_crossover_signal (prev curr : AugBar) : Int :=
  if prev.ma_short ≤ prev.ma_long ∧ curr.ma_short > curr.ma_long then 1
  else if prev.ma_short ≥ prev.ma_long ∧ curr.ma_short < curr.ma_long then -1
  else 0

/-- TechnicalIndicators.get_rsi_signal (indicators.py 104-136) applied to
the last row `curr`: 1 below the buy threshold, -1 above the sell
threshold, 0 in between. -/
def get_rsi_signal (cfg : Config) (curr : AugBar) : Int :=
  if curr.rsi < cfg.rsi_buy_threshold then 1
  else if curr.rsi > cfg.rsi_sell_threshold then -1
  else 0

/-- TechnicalIndicators.get_combined_signal (indicators.py 138-178) applied
to the last two rows: buy branch first, then sell branch, else 0. -/
def get_combined_signal (cfg : Config) (prev curr : AugBar) : Int :=
  let ma_signal := get_ma_crossover_signal prev curr
  let rsi_signal := get_rsi_signal cfg curr
  if ma_signal = 1 ∧ (rsi_signal = 1 ∨ (curr.rsi ≥ 30 ∧ curr.rsi ≤ 50)) then 1
  else if ma_signal = -1 ∧ (rsi_signal = -1 ∨ curr.rsi ≥ 70) then -1
  else 0

/-- MACrossoverStrategy.should_buy (ma_crossover.py 78-110) applied to the
last two rows of a DataFrame that passed the length guard. -/
def should_buy (prev curr : AugBar) : Bool :=
  (decide (prev.ma_short ≤ prev.ma_long) && decide (curr.ma_short > curr.ma_long))
    && (decide (curr.rsi ≥ 30) && decide (curr.rsi ≤ 50))

/-- MACrossoverStrategy.should_sell (ma_crossover.py 112-147) applied to the
last two rows of a DataFrame that passed the length guard. -/
def should_sell (prev curr : AugBar) : Bool :=
  (decide (prev.ma_short ≥ prev.ma_long) && decide (curr.ma_short < curr.ma_long))
    || decide (curr.rsi ≥ 70)

/-- The inline buy condition of the backtest loop (bot.py 271-274), minus
the `position is None` conjunct which belongs to the state machine. -/
def btBuyCond (prev curr : AugBar) : Prop :=
  (prev.ma_short ≤ prev.ma_long ∧ curr.ma_short > curr.ma_long)
    ∧ (curr.rsi ≥ 30 ∧ curr.rsi ≤ 50)

instance (prev curr : AugBar) : Decidable (btBuyCond prev curr) := by
  unfold btBuyCond; infer_instance

/-- The inline sell condition of the backtest loop (bot.py 300-303), minus
the `position is not None` conjunct. -/
def btSellCond (prev curr : AugBar) : Prop :=
  (prev.ma_short ≥ prev.ma_long ∧ curr.ma_short < curr.ma_long) ∨ curr.rsi ≥ 70

instance (prev curr : AugBar) : Decidable (btSellCond prev curr) := by
  unfold btSellCond; infer_instance

/-- A live position as stored by RiskManager.add_position (manager.py
126-136). -/
structure Position where
  symbol : String
  amount : ℚ
  entry_price : ℚ
  stop_loss : ℚ
  take_profit : ℚ
  current_price : ℚ
  profit_loss : ℚ
  profit_loss_percentage : ℚ
deriving DecidableEq

/-- The RiskManager's `self.positions` dictionary, keyed by symbol. -/
abbrev Positions := List (String × Position)

/-- The error raised by update_position and remove_position when no
position exists for the symbol (`ValueError(f"Position for ... not
found")`, manager.py 163 and 192). -/
inductive RiskError where
  | positionNotFound
deriving DecidableEq

/-- Python dict assignment `self.positions[symbol] = position`: replace any
entry for the key, otherwise insert. -/
def dictInsert (ps : Positions) (sym : String) (p : Position) : Positions :=
  (sym, p) :: ps.filter (fun kv => kv.1 ≠ sym)

/-- Python `del self.positions[symbol]`. -/
def dictErase (ps : Positions) (sym : String) : Positions :=
  ps.filter (fun kv => kv.1 ≠ sym)

/-- RiskManager.calculate_stop_loss (manager.py 67-86). -/
def calculate_stop_loss (cfg : Config) (entry_price : ℚ) : ℚ :=
  entry_price * (1 - cfg.stop_loss_percentage / 100)

/-- RiskManager.calculate_take_profit (manager.py 88-107). -/
def calculate_take_profit (cfg : Config) (entry_price : ℚ) : ℚ :=
  entry_price * (1 + cfg.take_profit_percentage / 100)

/-- RiskManager.add_position (manager.py 109-146): computes stop loss and
take profit, builds the position record and stores it under the symbol,
returning it.  There is no check for an existing position: the dict
assignment overwrites any entry already present. -/
def add_position (cfg : Config) (ps : Positions) (sym : String)
    (amount entry_price : ℚ) : Position × Positions :=
  let p : Position :=
    { symbol := sym
      amount := amount
      entry_price := entry_price
      stop_loss := calculate_stop_loss cfg entry_price
      take_profit := calculate_take_profit cfg entry_price
      current_price := entry_price
      profit_loss := 0
      profit_loss_percentage := 0 }
  (p, dictInsert ps sym p)

/-- RiskManager.get_position (manager.py 204-214): `self.positions.get`. -/
def get_position (ps : Positions) (sym : String) : Option Position :=
  ps.lookup sym

/-- RiskManager.update_position (manager.py 148-176): raises when the
position is absent, otherwise rewrites current_price and the two
profit/loss fields in place. -/
def update_position (ps : Positions) (sym : String) (current_price : ℚ) :
    Except RiskError (Position × Positions) :=
  match ps.lookup sym with
  | none => .error .positionNotFound
  | some p =>
      let p' := { p with
        current_price := current_price
        profit_loss := (current_price - p.entry_price) * p.amount
        profit_loss_percentage := (current_price / p.entry_price - 1) * 100 }
      .ok (p', dictInsert ps sym p')

/-- RiskManager.remove_position (manager.py 178-202): raises when the
position is absent, otherwise deletes and returns it. -/
def remove_position (ps : Positions) (sym : String) :
    Except RiskError (Position × Positions) :=
  match ps.lookup sym with
  | none => .error .positionNotFound
  | some p => .ok (p, dictErase ps sym)

/-- RiskManager.check_stop_loss (manager.py 225-250): False when no
position exists, otherwise current_price <= stop_loss. -/
def check_stop_loss (ps : Positions) (sym : String) (current_price : ℚ) : Bool :=
  match ps.lookup sym with
  | none => false
  | some p => decide (current_price ≤ p.stop_loss)

/-- RiskManager.check_take_profit (manager.py 252-277): False when no
position exists, otherwise current_price >= take_profit. -/
def check_take_profit (ps : Positions) (sym : String) (current_price : ℚ) : Bool :=
  match ps.lookup sym with
  | none => false
  | some p => decide (current_price ≥ p.take_profit)

/-- A trade ledger entry appended by TradingBot.backtest (bot.py 289-297
and analogous sell sites).  The source writes `"id": str(len(trades)+1)`;
the numeric value is kept.  `side` is the dict's `"type"` field ("buy" or
"sell"), `status` is always "completed", and `timestamp` is the bar's
index entry (`row.name`). -/
structure Trade where
  id : Nat
  symbol : String
  side : String
  price : ℚ
  amount : ℚ
  timestamp : Int
  status : String
deriving DecidableEq

/-- The backtest-local position dict (bot.py 281-286). -/
structure BTPosition where
  symbol : String
  amount : ℚ
  entry_price : ℚ
  timestamp : Int
deriving DecidableEq

/-- The mutable loop state of TradingBot.backtest: balance, the open
position if any, and the trade ledger. -/
structure BTState where
  balance : ℚ
  position : Option BTPosition
  trades : List Trade
deriving DecidableEq

/-- Helper building the sell-side ledger entry appended by each of the
three sell sites of the loop and the final forced close (they are
textually identical in the source). -/
def sellTrade (sym : String) (trades : List Trade) (price amount : ℚ)
    (ts : Int) : Trade :=
  { id := trades.length + 1
    symbol := sym
    side := "sell"
    price := price
    amount := amount
    timestamp := ts
    status := "completed" }

/-- One iteration of the backtest loop body (bot.py 262-363) for the pair
(prev_row, curr row): the buy branch, then the elif chain of the sell
signal, the stop loss and the take profit, each of which requires an open
position; otherwise the state is unchanged. -/
def backtestStep (cfg : Config) (sym : String) (s : BTState)
    (prev curr : AugBar) : BTState :=
  let current_price := curr.bar.close
  if btBuyCond prev curr ∧ s.position = none then
    let amount := s.balance * (95 / 100) / current_price
    let cost := amount * current_price
    { balance := s.balance - cost
      position := some
        { symbol := sym
          amount := amount
          entry_price := current_price
          timestamp := curr.bar.timestamp }
      trades := s.trades ++
        [{ id := s.trades.length + 1
           symbol := sym
           side := "buy"
           price := current_price
           amount := amount
           timestamp := curr.bar.timestamp
           status := "completed" }] }
  else
    match s.position with
    | none => s
    | some p =>
      if btSellCond prev curr then
        { balance := s.balance + p.amount * current_price
          position := none
          trades := s.trades ++
            [sellTrade sym s.trades current_price p.amount curr.bar.timestamp] }
      else if current_price ≤ p.entry_price * (1 - cfg.stop_loss_percentage / 100) then
        { balance := s.balance + p.amount * current_price
          position := none
          trades := s.trades ++
            [sellTrade sym s.trades current_price p.amount curr.bar.timestamp] }
      else if current_price ≥ p.entry_price * (1 + cfg.take_profit_percentage / 100) then
        { balance := s.balance + p.amount * current_price
          position := none
          trades := s.trades ++
            [sellTrade sym s.trades current_price p.amount curr.bar.timestamp] }
      else s

/-- The loop `for i in range(1, len(df_with_indicators))` (bot.py 262):
each iteration consumes the pair (bars[i-1], bars[i]).  A list with fewer
than two bars performs no iteration. -/
def runBars (cfg : Config) (sym : String) : List AugBar → BTState → BTState
  | b0 :: b1 :: rest, s => runBars cfg sym (b1 :: rest) (backtestStep cfg sym s b0 b1)
  | _, s => s

/-- The forced liquidation after the loop (bot.py 365-381): if a position
is still open, sell it at the close of the last augmented bar
(`df_with_indicators.iloc[-1]["close"]`). -/
def forceClose (sym : String) (bars : List AugBar) (s : BTState) : BTState :=
  match s.position, bars.getLast? with
  | some p, some lb =>
      { balance := s.balance + p.amount * lb.bar.close
        position := none
        trades := s.trades ++
          [sellTrade sym s.trades lb.bar.close p.amount lb.bar.timestamp] }
  | _, _ => s

/-- The loop followed by the forced liquidation, starting from balance =
initial_balance, no position and an empty ledger. -/
def backtestFinal (cfg : Config) (sym : String) (bars : List AugBar)
    (initial_balance : ℚ) : BTState :=
  forceClose sym bars
    (runBars cfg sym bars { balance := initial_balance, position := none, trades := [] })

/-- The dictionary returned by TradingBot.backtest (bot.py 389-399). -/
structure BacktestResult where
  symbol : String
  start_date : String
  end_date : String
  timeframe : String
  initial_balance : ℚ
  final_balance : ℚ
  profit_loss : ℚ
  profit_loss_percentage : ℚ
  trades : List Trade
deriving DecidableEq

/-- TradingBot.backtest (bot.py 215-399) on an already-augmented bar
series.  `now` is the wall clock at the moment of invocation: the source
has `import time` and `datetime` available, but the backtest body never
reads them for the simulation — every ledger timestamp comes from the
bar index (`row.name`) — so the result cannot depend on `now`. -/
def backtest (now : Int) (cfg : Config) (sym start_date end_date timeframe : String)
    (bars : List AugBar) (initial_balance : ℚ) : BacktestResult :=
  let s := backtestFinal cfg sym bars initial_balance
  { symbol := sym
    start_date := start_date
    end_date := end_date
    timeframe := timeframe
    initial_balance := initial_balance
    final_balance := s.balance
    profit_loss := s.balance - initial_balance
    profit_loss_percentage := (s.balance - initial_balance) / initial_balance * 100
    trades := s.trades }

/-- Modelled from the spec: `ta.sma(close, length=n)` is computed by the
external pandas-ta library, not by code under src/.  Spec 4.1: "Simple
moving average over close, window = short_period and window = long_period
independently".  A window of n closes is available from bar index n-1
onward (pandas rolling mean with min_periods = window), so the value at
index i is the mean of closes i-n+1 .. i when n >= 1 and n-1 <= i, and
undefined (NaN) before that. -/
def smaAt (closes : List ℚ) (n i : Nat) : Option ℚ :=
  if 1 ≤ n ∧ n - 1 ≤ i ∧ i < closes.length then
    some (((closes.drop (i + 1 - n)).take n).sum / (n : ℚ))
  else none

/-- Price gain from bar j-1 to bar j (0 on a down move). -/
def gainAt (closes : List ℚ) (j : Nat) : ℚ :=
  max (closes.getD j 0 - closes.getD (j - 1) 0) 0

/-- Price loss from bar j-1 to bar j (0 on an up move). -/
def lossAt (closes : List ℚ) (j : Nat) : ℚ :=
  max (closes.getD (j - 1) 0 - closes.getD j 0) 0

/-- Wilder's smoothed average of f over period n at bar index i: the
simple average of f(1..n) as seed, then
avg(i) = (avg(i-1)*(n-1) + f(i)) / n for i > n. -/
def wilderAvg (f : Nat → ℚ) (n : Nat) : Nat → ℚ
  | 0 => ((List.range n).map (fun k => f (k + 1))).sum / (n : ℚ)
  | i + 1 =>
    if i + 1 ≤ n then ((List.range n).map (fun k => f (k + 1))).sum / (n : ℚ)
    else (wilderAvg f n i * ((n : ℚ) - 1) + f (i + 1)) / (n : ℚ)

/-- Modelled from the spec: `ta.rsi(close, length=n)` is computed by the
external pandas-ta library, not by code under src/.  Spec 4.1: "RSI over
close with window = rsi_period, using Wilder's smoothing convention:
average gain/loss over the window, RS = avg_gain/avg_loss,
RSI = 100 - 100/(1+RS); RSI is defined as 100 when avg_loss is 0."  The
first price change exists at index 1, so n changes are available from
index n onward; the value is undefined (NaN) before that. -/
def rsiAt (closes : List ℚ) (n i : Nat) : Option ℚ :=
  if 1 ≤ n ∧ n ≤ i ∧ i < closes.length then
    let avg_gain := wilderAvg (gainAt closes) n i
    let avg_loss := wilderAvg (lossAt closes) n i
    some (if avg_loss = 0 then 100 else 100 - 100 / (1 + avg_gain / avg_loss))
  else none

/-- Modelled from the spec: `ta.macd(close)` (12/26/9 fixed periods, spec
4.1) is computed by the external pandas-ta library, not by code under
src/, and its values are display-only — no signal rule reads them — so
only definedness is modelled: the MACD line needs 26 closes (defined from
index 25) and its 9-period signal line a further 8, so the three MACD
columns are defined from index 33 onward. -/
def macdDefinedAt (i len : Nat) : Prop := 26 + 9 - 2 ≤ i ∧ i < len

instance (i len : Nat) : Decidable (macdDefinedAt i len) := by
  unfold macdDefinedAt; infer_instance

/-- Modelled from the spec: `ta.bbands(close)` (20-period, 2 standard
deviations, spec 4.1) is computed by the external pandas-ta library, not
by code under src/, and is display-only, so only definedness is modelled:
a 20-bar window is available from index 19 onward. -/
def bbandsDefinedAt (i len : Nat) : Prop := 20 - 1 ≤ i ∧ i < len

instance (i len : Nat) : Decidable (bbandsDefinedAt i len) := by
  unfold bbandsDefinedAt; infer_instance

/-- Row i of the augmented DataFrame before `dropna` (indicators.py
33-58): the bar with its ma_short, ma_long and rsi columns, provided every
indicator column — the two moving averages, the RSI, the MACD triple and
the Bollinger triple — is defined there; `none` models a row containing a
NaN, which `dropna` removes. -/
def augAt (cfg : Config) (bars : List Bar) (i : Nat) : Option AugBar :=
  (bars.get? i).bind fun b =>
  (smaAt (bars.map Bar.close) cfg.short_ma_period i).bind fun ms =>
  (smaAt (bars.map Bar.close) cfg.long_ma_period i).bind fun ml =>
  (rsiAt (bars.map Bar.close) cfg.rsi_period i).bind fun r =>
  if macdDefinedAt i bars.length ∧ bbandsDefinedAt i bars.length then
    some { bar := b, ma_short := ms, ma_long := ml, rsi := r }
  else none

/-- TechnicalIndicators.add_indicators (indicators.py 22-65): compute all
indicator columns, then `dropna` — the output keeps exactly the rows on
which every indicator is defined, in order. -/
def add_indicators (cfg : Config) (bars : List Bar) : List AugBar :=
  (List.range bars.length).filterMap (augAt cfg bars)

/-- The length of the prefix of rows removed by `dropna`: the first index
at which every indicator column is defined: ma_short from short-1,
ma_long from long-1, rsi from rsi_period, MACD(12/26/9) from 33 and
Bollinger(20) from 19. -/
def dropLookback (cfg : Config) : Nat :=
  max (cfg.short_ma_period - 1) (max (cfg.long_ma_period - 1)
    (max cfg.rsi_period (max (26 + 9 - 2) (20 - 1))))

/-- Concrete bar with the given timestamp and close (other OHLCV fields
zero; no property under test reads them). -/
def mkBar (ts : Int) (c : ℚ) : Bar :=
  { timestamp := ts, open_price := 0, high := 0, low := 0, close := c, volume := 0 }

/-- Concrete augmented bar from timestamp, close, short MA, long MA, RSI. -/
def mkAug (ts : Int) (c ms ml r : ℚ) : AugBar :=
  { bar := mkBar ts c, ma_short := ms, ma_long := ml, rsi := r }

/-- The MA crossover signal is 1 exactly on a bullish crossover. -/
lemma ma_signal_eq_one (prev curr : AugBar) :
    get_ma_crossover_signal prev curr = 1 ↔
      (prev.ma_short ≤ prev.ma_long ∧ curr.ma_short > curr.ma_long) := by
  unfold get_ma_crossover_signal
  split_ifs with h1 h2
  · simpa using h1
  · simp only [show ((-1 : Int) = 1 ↔ False) by decide, false_iff]
    intro h
    exact absurd h.2 (not_lt.mpr (le_of_lt h2.2))
  · simp only [show ((0 : Int) = 1 ↔ False) by decide, false_iff]
    exact h1

/-- The MA crossover signal is -1 exactly on a bearish crossover. -/
lemma ma_signal_eq_neg_one (prev curr : AugBar) :
    get_ma_crossover_signal prev curr = -1 ↔
      (prev.ma_short ≥ prev.ma_long ∧ curr.ma_short < curr.ma_long) := by
  unfold get_ma_crossover_signal
  split_ifs with h1 h2
  · simp only [show ((1 : Int) = -1 ↔ False) by decide, false_iff]
    intro h
    exact absurd h1.2 (not_lt.mpr (le_of_lt h.2))
  · simpa using h2
  · simp only [show ((0 : Int) = -1 ↔ False) by decide, false_iff]
    exact h2

/-- The RSI signal is 1 exactly below the buy threshold. -/
lemma rsi_signal_eq_one (cfg : Config) (curr : AugBar) :
    get_rsi_signal cfg curr = 1 ↔ curr.rsi < cfg.rsi_buy_threshold := by
  unfold get_rsi_signal
  split_ifs with h1 h2
  · simpa using h1
  · simp only [show ((-1 : Int) = 1 ↔ False) by decide, false_iff]
    exact h1
  · simp only [show ((0 : Int) = 1 ↔ False) by decide, false_iff]
    exact h1

/-- When the buy threshold is at most the sell threshold (as in every real
configuration; the defaults are 50 and 70), the RSI signal is -1 exactly
above the sell threshold. -/
lemma rsi_signal_eq_neg_one (cfg : Config) (curr : AugBar)
    (hth : cfg.rsi_buy_threshold ≤ cfg.rsi_sell_threshold) :
    get_rsi_signal cfg curr = -1 ↔ cfg.rsi_sell_threshold < curr.rsi := by
  unfold get_rsi_signal
  split_ifs with h1 h2
  · simp only [show ((1 : Int) = -1 ↔ False) by decide, false_iff, not_lt]
    exact le_of_lt (lt_of_lt_of_le h1 hth)
  · simpa using h2
  · simp only [show ((0 : Int) = -1 ↔ False) by decide, false_iff]
    exact h2

/-- get_combined_signal returns 1 exactly when the buy branch fires. -/
lemma combined_eq_one (cfg : Config) (prev curr : AugBar) :
    get_combined_signal cfg prev curr = 1 ↔
      (prev.ma_short ≤ prev.ma_long ∧ curr.ma_short > curr.ma_long)
        ∧ (curr.rsi < cfg.rsi_buy_threshold ∨ (30 ≤ curr.rsi ∧ curr.rsi ≤ 50)) := by
  unfold get_combined_signal
  dsimp only
  split_ifs with h1 h2
  · simp only [true_iff]
    exact ⟨(ma_signal_eq_one prev curr).mp h1.1,
      h1.2.imp (fun h => (rsi_signal_eq_one cfg curr).mp h) id⟩
  · simp only [show ((-1 : Int) = 1 ↔ False) by decide, false_iff]
    intro h
    exact h1 ⟨(ma_signal_eq_one prev curr).mpr h.1,
      h.2.imp (fun h' => (rsi_signal_eq_one cfg curr).mpr h') id⟩
  · simp only [show ((0 : Int) = 1 ↔ False) by decide, false_iff]
    intro h
    exact h1 ⟨(ma_signal_eq_one prev curr).mpr h.1,
      h.2.imp (fun h' => (rsi_signal_eq_one cfg curr).mpr h') id⟩

/-- get_combined_signal returns -1 exactly when the sell branch fires:
a bearish crossover is mandatory there. -/
lemma combined_eq_neg_one (cfg : Config) (prev curr : AugBar)
    (hth : cfg.rsi_buy_threshold ≤ cfg.rsi_sell_threshold) :
    get_combined_signal cfg prev curr = -1 ↔
      (prev.ma_short ≥ prev.ma_long ∧ curr.ma_short < curr.ma_long)
        ∧ (cfg.rsi_sell_threshold < curr.rsi ∨ 70 ≤ curr.rsi) := by
  unfold get_combined_signal
  dsimp only
  split_ifs with h1 h2
  · simp only [show ((1 : Int) = -1 ↔ False) by decide, false_iff]
    intro h
    have hm := (ma_signal_eq_neg_one prev curr).mpr h.1
    rw [hm] at h1
    exact absurd h1.1 (by decide)
  · simp only [true_iff]
    exact ⟨(ma_signal_eq_neg_one prev curr).mp h2.1,
      h2.2.imp (fun h => (rsi_signal_eq_neg_one cfg curr hth).mp h) id⟩
  · simp only [show ((0 : Int) = -1 ↔ False) by decide, false_iff]
    intro h
    exact h2 ⟨(ma_signal_eq_neg_one prev curr).mpr h.1,
      h.2.imp (fun h' => (rsi_signal_eq_neg_one cfg curr hth).mpr h') id⟩

/-- C1 (amended): for every pair of consecutive augmented bars, the
strategy's sell predicate should_sell and the backtest's inline sell rule
return Sell iff (bearish crossover) OR rsi >= 70 — RSI alone suffices
there — but get_combined_signal, the signal generator the live pipeline
uses, returns Sell iff a bearish crossover occurred AND (rsi above the
sell threshold OR rsi >= 70): RSI >= 70 alone, with no bearish crossover,
does not yield Sell from get_combined_signal. -/
theorem C1_sell_rule (cfg : Config) (prev curr : AugBar)
    (hth : cfg.rsi_buy_threshold ≤ cfg.rsi_sell_threshold) :
    (should_sell prev curr = true ↔
      ((prev.ma_short ≥ prev.ma_long ∧ curr.ma_short < curr.ma_long) ∨ 70 ≤ curr.rsi))
    ∧ (btSellCond prev curr ↔
      ((prev.ma_short ≥ prev.ma_long ∧ curr.ma_short < curr.ma_long) ∨ 70 ≤ curr.rsi))
    ∧ (get_combined_signal cfg prev curr = -1 ↔
      ((prev.ma_short ≥ prev.ma_long ∧ curr.ma_short < curr.ma_long)
        ∧ (cfg.rsi_sell_threshold < curr.rsi ∨ 70 ≤ curr.rsi))) := by
  refine ⟨?_, Iff.rfl, combined_eq_neg_one cfg prev curr hth⟩
  simp [should_sell, Bool.or_eq_true, Bool.and_eq_true, decide_eq_true_eq, ge_iff_le]

/-- C1 (witness): at a concrete input with RSI 75 and no crossover, the
amended rule instantiates: should_sell fires on the RSI-only branch. -/
theorem C1_sell_rule_witness :
    should_sell (mkAug 0 100 1 1 50) (mkAug 1 100 1 1 75) = true :=
  ((C1_sell_rule defaultConfig (mkAug 0 100 1 1 50) (mkAug 1 100 1 1 75)
    (by decide)).1).mpr (Or.inr (by decide))

/-- C1 (counterexample): with the default configuration, a bar pair with
RSI 75 and no bearish crossover makes get_combined_signal return 0 (Hold),
not Sell, refuting the claim that the signal generator returns Sell
whenever rsi >= 70. -/
theorem C1_counterexample :
    get_combined_signal defaultConfig (mkAug 0 100 1 1 50) (mkAug 1 100 1 1 75) = 0
      ∧ 70 ≤ (mkAug 1 100 1 1 75).rsi
      ∧ ¬ ((mkAug 0 100 1 1 50).ma_short ≥ (mkAug 0 100 1 1 50).ma_long
            ∧ (mkAug 1 100 1 1 75).ma_short < (mkAug 1 100 1 1 75).ma_long) :=
  ⟨by decide, by decide, by decide⟩

/-- C2 (amended): for every pair of consecutive augmented bars, the
strategy's buy predicate should_buy and the backtest's inline buy rule
return Buy iff bullish crossover AND rsi in the closed band [30, 50]
(both endpoints inside), but get_combined_signal, the signal generator
the live pipeline uses, returns Buy iff bullish crossover AND (rsi below
the configured buy threshold OR rsi in [30, 50]): with the default
threshold of 50, any rsi strictly below 30 also yields Buy on a bullish
crossover. -/
theorem C2_buy_rule (cfg : Config) (prev curr : AugBar) :
    (should_buy prev curr = true ↔
      ((prev.ma_short ≤ prev.ma_long ∧ curr.ma_long < curr.ma_short)
        ∧ (30 ≤ curr.rsi ∧ curr.rsi ≤ 50)))
    ∧ (btBuyCond prev curr ↔
      ((prev.ma_short ≤ prev.ma_long ∧ curr.ma_long < curr.ma_short)
        ∧ (30 ≤ curr.rsi ∧ curr.rsi ≤ 50)))
    ∧ (get_combined_signal cfg prev curr = 1 ↔
      ((prev.ma_short ≤ prev.ma_long ∧ curr.ma_long < curr.ma_short)
        ∧ (curr.rsi < cfg.rsi_buy_threshold ∨ (30 ≤ curr.rsi ∧ curr.rsi ≤ 50)))) := by
  refine ⟨?_, Iff.rfl, combined_eq_one cfg prev curr⟩
  simp [should_buy, Bool.and_eq_true, decide_eq_true_eq, ge_iff_le, gt_iff_lt, and_assoc]

/-- C2 (counterexample): with the default configuration (buy threshold
50), a bullish crossover with RSI 20 — strictly below the claimed band —
makes get_combined_signal return 1 (Buy), refuting the claim that RSI
outside [30, 50] never yields Buy. -/
theorem C2_counterexample :
    get_combined_signal defaultConfig (mkAug 0 100 1 2 40) (mkAug 1 100 3 2 20) = 1
      ∧ (mkAug 1 100 3 2 20).rsi < 30 :=
  ⟨by decide, by decide⟩

/-- A stored position respects its exit thresholds. -/
def posOK (p : Position) : Prop :=
  p.stop_loss < p.entry_price ∧ p.entry_price < p.take_profit

/-- Every position in the risk manager's table respects posOK. -/
def rmInv (ps : Positions) : Prop := ∀ kv ∈ ps, posOK kv.2

/-- Looking a key up in an association list finds a stored pair. -/
lemma lookup_mem {ps : Positions} {sym : String} {p : Position}
    (h : ps.lookup sym = some p) : (sym, p) ∈ ps := by
  induction ps with
  | nil => simp [List.lookup] at h
  | cons kv rest ih =>
    rw [List.lookup] at h
    cases hk : (sym == kv.1) with
    | true =>
      rw [hk] at h
      rcases kv with ⟨k, v⟩
      have h1 : sym = k := by simpa using hk
      have h2 : v = p := by simpa using h
      rw [h1, ← h2]
      exact List.mem_cons_self _ _
    | false =>
      rw [hk] at h
      exact List.mem_cons_of_mem _ (ih h)

/-- dictInsert keeps the invariant when the inserted position is sound. -/
lemma rmInv_dictInsert {ps : Positions} {sym : String} {p : Position}
    (hps : rmInv ps) (hp : posOK p) : rmInv (dictInsert ps sym p) := by
  intro kv hkv
  rcases List.mem_cons.mp hkv with h | h
  · rw [h]
    exact hp
  · exact hps kv (List.mem_of_mem_filter h)

/-- C4 (amended): add_position computes stop_loss = entry * (1 -
stop_loss_pct/100) and take_profit = entry * (1 + take_profit_pct/100)
and stores the new position under the symbol; but it performs no
duplicate check — when a position for the symbol already exists it is
silently overwritten by the new one, and no DuplicatePosition failure
exists in the risk manager. -/
theorem C4_add_position (cfg : Config) (ps : Positions) (sym : String)
    (amount entry_price : ℚ) :
    (add_position cfg ps sym amount entry_price).1.stop_loss
        = entry_price * (1 - cfg.stop_loss_percentage / 100)
    ∧ (add_position cfg ps sym amount entry_price).1.take_profit
        = entry_price * (1 + cfg.take_profit_percentage / 100)
    ∧ (add_position cfg ps sym amount entry_price).2.lookup sym
        = some (add_position cfg ps sym amount entry_price).1 := by
  refine ⟨rfl, rfl, ?_⟩
  simp [add_position, dictInsert, List.lookup]

/-- C4 (counterexample): after opening a BTC/USDT position at entry price
100, a second add_position call for the same symbol succeeds and replaces
the stored position with one at entry price 200 — the existing position is
not left unchanged and no error occurs, refuting the DuplicatePosition
behaviour. -/
theorem C4_counterexample :
    (((add_position defaultConfig
        (add_position defaultConfig [] "BTC/USDT" 1 100).2
        "BTC/USDT" 2 200).2.lookup "BTC/USDT").map Position.entry_price = some 200)
    ∧ (((add_position defaultConfig [] "BTC/USDT" 1 100).2.lookup
        "BTC/USDT").map Position.entry_price = some 100) :=
  ⟨by decide, by decide⟩

/-- C10: for a symbol with no stored position, check_stop_loss and
check_take_profit return false at every price, while update_position and
remove_position fail with the position-not-found error. -/
theorem C10_absent_position (ps : Positions) (sym : String) (price : ℚ)
    (h : ps.lookup sym = none) :
    check_stop_loss ps sym price = false
    ∧ check_take_profit ps sym price = false
    ∧ update_position ps sym price = .error .positionNotFound
    ∧ remove_position ps sym = .error .positionNotFound := by
  refine ⟨?_, ?_, ?_, ?_⟩ <;> simp [check_stop_loss, check_take_profit,
    update_position, remove_position, h]

/-- With positive percentages and a positive entry price, the freshly
computed exit thresholds bracket the entry price. -/
lemma thresholds_bracket (cfg : Config) (entry_price : ℚ)
    (hsl : 0 < cfg.stop_loss_percentage) (htp : 0 < cfg.take_profit_percentage)
    (he : 0 < entry_price) :
    calculate_stop_loss cfg entry_price < entry_price
    ∧ entry_price < calculate_take_profit cfg entry_price := by
  unfold calculate_stop_loss calculate_take_profit
  constructor
  · nlinarith [mul_pos he (div_pos hsl (show (0:ℚ) < 100 by norm_num))]
  · nlinarith [mul_pos he (div_pos htp (show (0:ℚ) < 100 by norm_num))]

/-- C7: when stop_loss_percentage, take_profit_percentage and the entry
price are positive, the invariant stop_loss < entry_price < take_profit
holds for the position created by add_position and is preserved by every
state-changing risk-manager operation (add_position, update_position,
remove_position); check_stop_loss, check_take_profit and get_position
read the table without modifying any position. -/
theorem C7_invariant (cfg : Config) (ps : Positions)
    (hsl : 0 < cfg.stop_loss_percentage) (htp : 0 < cfg.take_profit_percentage)
    (hinv : rmInv ps) :
    (∀ sym amount entry_price, 0 < entry_price →
      posOK (add_position cfg ps sym amount entry_price).1
      ∧ rmInv (add_position cfg ps sym amount entry_price).2)
    ∧ (∀ sym price res, update_position ps sym price = .ok res → rmInv res.2)
    ∧ (∀ sym res, remove_position ps sym = .ok res → rmInv res.2) := by
  refine ⟨?_, ?_, ?_⟩
  · intro sym amount entry_price he
    have hb := thresholds_bracket cfg entry_price hsl htp he
    exact ⟨hb, rmInv_dictInsert hinv hb⟩
  · intro sym price res hres
    unfold update_position at hres
    cases hl : ps.lookup sym with
    | none => rw [hl] at hres; cases hres
    | some p =>
      rw [hl] at hres
      cases hres
      have hp : posOK p := hinv (sym, p) (lookup_mem hl)
      exact rmInv_dictInsert hinv hp
  · intro sym res hres
    unfold remove_position at hres
    cases hl : ps.lookup sym with
    | none => rw [hl] at hres; cases hres
    | some p =>
      rw [hl] at hres
      cases hres
      intro kv hkv
      exact hinv kv (List.mem_of_mem_filter hkv)

/-- C7 (witness): with the default configuration on an empty table, a
position opened at entry price 100 satisfies the invariant. -/
theorem C7_invariant_witness :
    posOK (add_position defaultConfig [] "BTC/USDT" 1 100).1 :=
  ((C7_invariant defaultConfig [] (by norm_num [defaultConfig])
      (by norm_num [defaultConfig])
      (fun kv hkv => absurd hkv (List.not_mem_nil kv))).1
    "BTC/USDT" 1 100 (by norm_num)).1

/-- C8: on a bar where no position is open and the inline buy rule fires,
the backtest opens a position of amount 0.95 * balance / close, debits the
balance by amount * close (leaving 5% of it when the price is nonzero),
appends a buy trade with that amount and price, and moves to the
in-position state. -/
theorem C8_buy_branch (cfg : Config) (sym : String) (s : BTState)
    (prev curr : AugBar) (hflat : s.position = none)
    (hbuy : btBuyCond prev curr) :
    backtestStep cfg sym s prev curr =
      { balance := s.balance - s.balance * (95 / 100) / curr.bar.close * curr.bar.close
        position := some
          { symbol := sym
            amount := s.balance * (95 / 100) / curr.bar.close
            entry_price := curr.bar.close
            timestamp := curr.bar.timestamp }
        trades := s.trades ++
          [{ id := s.trades.length + 1
             symbol := sym
             side := "buy"
             price := curr.bar.close
             amount := s.balance * (95 / 100) / curr.bar.close
             timestamp := curr.bar.timestamp
             status := "completed" }] }
    ∧ (curr.bar.close ≠ 0 →
        (backtestStep cfg sym s prev curr).balance = s.balance * (5 / 100)) := by
  have hcond : btBuyCond prev curr ∧ s.position = none := ⟨hbuy, hflat⟩
  constructor
  · unfold backtestStep
    rw [if_pos hcond]
  · intro hc
    unfold backtestStep
    rw [if_pos hcond]
    show s.balance - s.balance * (95 / 100) / curr.bar.close * curr.bar.close
      = s.balance * (5 / 100)
    rw [div_mul_cancel₀ _ hc]
    ring

/-- C8 (witness): a flat state with balance 100 and a bullish crossover
with RSI 40 at close 100 leaves exactly 5 of balance after the buy. -/
theorem C8_buy_branch_witness :
    (backtestStep defaultConfig "BTC/USDT"
      { balance := 100, position := none, trades := [] }
      (mkAug 0 100 1 2 40) (mkAug 1 100 3 2 40)).balance = 100 * (5 / 100) :=
  (C8_buy_branch defaultConfig "BTC/USDT"
    { balance := 100, position := none, trades := [] }
    (mkAug 0 100 1 2 40) (mkAug 1 100 3 2 40) rfl (by decide)).2 (by decide)

/-- A series with fewer than two augmented bars makes the backtest loop a
no-op: the state is returned unchanged and no forced close happens. -/
lemma backtestFinal_short (cfg : Config) (sym : String) (bars : List AugBar)
    (init : ℚ) (h : bars.length < 2) :
    backtestFinal cfg sym bars init =
      { balance := init, position := none, trades := [] } := by
  rcases bars with _ | ⟨b, _ | ⟨b1, r⟩⟩
  · rfl
  · rfl
  · simp only [List.length_cons] at h
    omega

/-- C5 (amended): when fewer than two bars carry complete indicator
values, the backtest does not fail: the loop body never executes and a
normal Result is returned with the initial balance intact, zero
profit/loss and an empty trade ledger — no InsufficientData error exists
on this path. -/
theorem C5_short_series (now : Int) (cfg : Config) (sym sd ed tf : String)
    (raw : List Bar) (init : ℚ)
    (h : (add_indicators cfg raw).length < 2) :
    backtest now cfg sym sd ed tf (add_indicators cfg raw) init =
      { symbol := sym
        start_date := sd
        end_date := ed
        timeframe := tf
        initial_balance := init
        final_balance := init
        profit_loss := 0
        profit_loss_percentage := 0
        trades := [] } := by
  unfold backtest
  rw [backtestFinal_short cfg sym _ init h]
  simp [sub_self]

/-- C5 (witness): a one-bar input series has no fully-augmented bar under
the default configuration, and its backtest returns the empty Result. -/
theorem C5_short_series_witness :
    backtest 0 defaultConfig "BTC/USDT" "a" "b" "15m"
        (add_indicators defaultConfig [mkBar 0 5]) 100 =
      { symbol := "BTC/USDT"
        start_date := "a"
        end_date := "b"
        timeframe := "15m"
        initial_balance := 100
        final_balance := 100
        profit_loss := 0
        profit_loss_percentage := 0
        trades := [] } :=
  C5_short_series 0 defaultConfig "BTC/USDT" "a" "b" "15m" [mkBar 0 5] 100 (by decide)

/-- C5 (counterexample): at the concrete one-bar input the backtest
returns a Result — empty ledger, final balance equal to the initial
balance — instead of failing with InsufficientData as the claim states. -/
theorem C5_counterexample :
    (add_indicators defaultConfig [mkBar 0 5]).length = 0
    ∧ backtest 0 defaultConfig "ETH/USDT" "c" "d" "1h"
        (add_indicators defaultConfig [mkBar 0 5]) 50 =
      { symbol := "ETH/USDT"
        start_date := "c"
        end_date := "d"
        timeframe := "1h"
        initial_balance := 50
        final_balance := 50
        profit_loss := 0
        profit_loss_percentage := 0
        trades := [] } := by
  constructor
  · rfl
  · have he : add_indicators defaultConfig [mkBar 0 5] = [] := rfl
    rw [he]
    unfold backtest
    rw [backtestFinal_short defaultConfig "ETH/USDT" [] 50 (by decide)]
    simp [sub_self]

/-- Ledger shape invariant of the backtest loop: flat states have an empty
ledger or a final sell, in-position states have a final buy. -/
def ledgerInv (s : BTState) : Prop :=
  match s.position with
  | none => s.trades = [] ∨ ∃ t, s.trades.getLast? = some t ∧ t.side = "sell"
  | some _ => ∃ t, s.trades.getLast? = some t ∧ t.side = "buy"

/-- One loop iteration preserves the ledger shape invariant. -/
lemma step_ledgerInv (cfg : Config) (sym : String) (s : BTState)
    (prev curr : AugBar) (h : ledgerInv s) :
    ledgerInv (backtestStep cfg sym s prev curr) := by
  unfold backtestStep
  dsimp only
  by_cases hb : btBuyCond prev curr ∧ s.position = none
  · rw [if_pos hb]
    exact ⟨_, List.getLast?_concat _, rfl⟩
  · rw [if_neg hb]
    cases hsp : s.position with
    | none => exact h
    | some p =>
      dsimp only
      split_ifs with h1 h2 h3
      · exact Or.inr ⟨_, List.getLast?_concat _, rfl⟩
      · exact Or.inr ⟨_, List.getLast?_concat _, rfl⟩
      · exact Or.inr ⟨_, List.getLast?_concat _, rfl⟩
      · exact h

/-- The whole loop preserves the ledger shape invariant. -/
lemma runBars_ledgerInv (cfg : Config) (sym : String) :
    ∀ (bars : List AugBar) (s : BTState),
      ledgerInv s → ledgerInv (runBars cfg sym bars s) := by
  intro bars
  induction bars with
  | nil => exact fun s h => h
  | cons b rest ih =>
    intro s h
    cases rest with
    | nil => exact h
    | cons b1 r =>
      exact ih (backtestStep cfg sym s b b1) (step_ledgerInv cfg sym s b b1 h)

/-- C3 (amended): every backtest ends flat — the force-close guarantees
the final state carries no position, and a nonempty ledger always ends
with a sell; when the loop itself ends still in a position, the final
trade is that forced sell at the last augmented bar's close price and
timestamp.  (A position closed by the loop before the last bar leaves a
final sell at the close price of the bar on which it exited, which need
not equal the last bar's close.) -/
theorem C3_terminal (now : Int) (cfg : Config) (sym sd ed tf : String)
    (bars : List AugBar) (init : ℚ) :
    (backtestFinal cfg sym bars init).position = none
    ∧ (∀ t, (backtest now cfg sym sd ed tf bars init).trades.getLast? = some t →
        t.side = "sell")
    ∧ (∀ p lb,
        (runBars cfg sym bars { balance := init, position := none, trades := [] }).position
          = some p →
        bars.getLast? = some lb →
        ∃ t, (backtest now cfg sym sd ed tf bars init).trades.getLast? = some t
          ∧ t.side = "sell" ∧ t.price = lb.bar.close ∧ t.timestamp = lb.bar.timestamp) := by
  have hinv : ledgerInv
      (runBars cfg sym bars { balance := init, position := none, trades := [] }) :=
    runBars_ledgerInv cfg sym bars _ (Or.inl rfl)
  have htr : (backtest now cfg sym sd ed tf bars init).trades
      = (forceClose sym bars
          (runBars cfg sym bars { balance := init, position := none, trades := [] })).trades :=
    rfl
  have hbf : backtestFinal cfg sym bars init
      = forceClose sym bars
          (runBars cfg sym bars { balance := init, position := none, trades := [] }) := rfl
  rcases hpos : (runBars cfg sym bars
      { balance := init, position := none, trades := [] }).position with _ | p
  · have hfc : forceClose sym bars
        (runBars cfg sym bars { balance := init, position := none, trades := [] })
        = runBars cfg sym bars { balance := init, position := none, trades := [] } := by
      unfold forceClose
      rw [hpos]
    refine ⟨?_, ?_, ?_⟩
    · rw [hbf, hfc, hpos]
    · intro t ht
      rw [htr, hfc] at ht
      rw [ledgerInv, hpos] at hinv
      rcases hinv with hnil | ⟨t', ht', hside⟩
      · rw [hnil] at ht
        cases ht
      · rw [ht'] at ht
        obtain rfl := Option.some.inj ht
        exact hside
    · intro p lb hp hlb
      cases hp
  · rcases hlb0 : bars.getLast? with _ | lb0
    · have hnil : bars = [] := List.getLast?_eq_none_iff.mp hlb0
      rw [hnil] at hpos
      cases hpos
    · have hfc : forceClose sym bars
          (runBars cfg sym bars { balance := init, position := none, trades := [] })
          = { balance := (runBars cfg sym bars
                { balance := init, position := none, trades := [] }).balance
                + p.amount * lb0.bar.close
              position := none
              trades := (runBars cfg sym bars
                { balance := init, position := none, trades := [] }).trades ++
                [sellTrade sym (runBars cfg sym bars
                  { balance := init, position := none, trades := [] }).trades
                  lb0.bar.close p.amount lb0.bar.timestamp] } := by
        unfold forceClose
        rw [hpos, hlb0]
      refine ⟨?_, ?_, ?_⟩
      · rw [hbf, hfc]
      · intro t ht
        rw [htr, hfc] at ht
        dsimp only at ht
        rw [List.getLast?_concat] at ht
        obtain rfl := Option.some.inj ht
        rfl
      · intro p' lb' hp' hlb'
        obtain rfl := Option.some.inj hp'
        obtain rfl := Option.some.inj hlb'
        refine ⟨sellTrade sym (runBars cfg sym bars
            { balance := init, position := none, trades := [] }).trades
            lb0.bar.close p.amount lb0.bar.timestamp, ?_, rfl, rfl, rfl⟩
        rw [htr, hfc]
        exact List.getLast?_concat _

/-- Concrete augmented series for exercising the backtest: a buy fires on
the second bar (bullish crossover, RSI 40, close 100), an RSI-overbought
sell on the third (close 101), and the last bar closes at 200 with no
signal. -/
def exC3 : List AugBar :=
  [mkAug 0 100 1 2 40, mkAug 1 100 3 2 40, mkAug 2 101 3 2 75, mkAug 3 200 2 2 50]

/-- Concrete two-bar augmented series whose single transition is a buy, so
the loop ends still in position and the forced close fires. -/
def exC3w : List AugBar := [mkAug 0 100 1 2 40, mkAug 1 100 3 2 40]

/-- C3 (witness): on the two-bar buy-only series the loop ends in
position, and the amended theorem yields the forced final sell at the last
bar's close 100 and timestamp 1. -/
theorem C3_terminal_witness :
    ∃ t, (backtest 0 defaultConfig "BTC/USDT" "s" "e" "15m" exC3w 100).trades.getLast?
        = some t
      ∧ t.side = "sell" ∧ t.price = (mkAug 1 100 3 2 40).bar.close
      ∧ t.timestamp = (mkAug 1 100 3 2 40).bar.timestamp :=
  (C3_terminal 0 defaultConfig "BTC/USDT" "s" "e" "15m" exC3w 100).2.2
    { symbol := "BTC/USDT", amount := 100 * (95 / 100) / 100
      entry_price := 100, timestamp := 1 }
    (mkAug 1 100 3 2 40) (by rfl) (by rfl)

/-- C3 (counterexample): on the four-bar series the position opens and is
sold by the loop at close 101 on the third bar; the ledger's final trade
is that sell at price 101, while the last bar's close is 200 — so the
final trade of a backtest that opened a position is not always a sell at
the last bar's close price. -/
theorem C3_counterexample :
    ((backtest 0 defaultConfig "BTC/USDT" "s" "e" "15m" exC3 100).trades.map Trade.side
        = ["buy", "sell"])
    ∧ ((backtest 0 defaultConfig "BTC/USDT" "s" "e" "15m" exC3 100).trades.getLast?).map
        Trade.price = some 101
    ∧ (exC3.getLast?).map (fun b => b.bar.close) = some 200
    ∧ (101 : ℚ) ≠ 200 := by
  refine ⟨by decide, by decide, by decide, by decide⟩

/-- Any trade appended by one loop iteration is stamped with the current
bar's timestamp. -/
lemma step_trades_ts (cfg : Config) (sym : String) (s : BTState)
    (prev curr : AugBar) (t : Trade)
    (ht : t ∈ (backtestStep cfg sym s prev curr).trades) :
    t ∈ s.trades ∨ t.timestamp = curr.bar.timestamp := by
  revert ht
  unfold backtestStep
  dsimp only
  by_cases hb : btBuyCond prev curr ∧ s.position = none
  · rw [if_pos hb]
    intro ht
    rcases List.mem_append.mp ht with h | h
    · exact Or.inl h
    · rw [List.mem_singleton.mp h]
      exact Or.inr rfl
  · rw [if_neg hb]
    cases hsp : s.position with
    | none => exact fun ht => Or.inl ht
    | some p =>
      dsimp only
      split_ifs with h1 h2 h3 <;> intro ht
      · rcases List.mem_append.mp ht with h | h
        · exact Or.inl h
        · rw [List.mem_singleton.mp h]
          exact Or.inr rfl
      · rcases List.mem_append.mp ht with h | h
        · exact Or.inl h
        · rw [List.mem_singleton.mp h]
          exact Or.inr rfl
      · rcases List.mem_append.mp ht with h | h
        · exact Or.inl h
        · rw [List.mem_singleton.mp h]
          exact Or.inr rfl
      · exact Or.inl ht

/-- Any trade in the ledger after the loop is stamped with the timestamp
of some processed bar. -/
lemma runBars_trades_ts (cfg : Config) (sym : String) :
    ∀ (bars L : List AugBar) (s : BTState),
      (∀ b ∈ bars, b ∈ L) →
      (∀ t ∈ s.trades, ∃ b ∈ L, t.timestamp = b.bar.timestamp) →
      ∀ t ∈ (runBars cfg sym bars s).trades, ∃ b ∈ L, t.timestamp = b.bar.timestamp := by
  intro bars
  induction bars with
  | nil => exact fun L s _ hs => hs
  | cons b rest ih =>
    intro L s hsub hs
    cases rest with
    | nil => exact hs
    | cons b1 r =>
      refine ih L (backtestStep cfg sym s b b1) ?_ ?_
      · exact fun x hx => hsub x (List.mem_cons_of_mem b hx)
      · intro t ht
        rcases step_trades_ts cfg sym s b b1 t ht with h | h
        · exact hs t h
        · exact ⟨b1, hsub b1 (List.mem_cons_of_mem b (List.mem_cons_self b1 r)), h⟩

/-- A trade present after the forced close was either produced by the loop
or is the forced sell stamped with the last bar's timestamp. -/
lemma forceClose_trades_ts (sym : String) (bars : List AugBar) (s : BTState)
    (t : Trade) (ht : t ∈ (forceClose sym bars s).trades) :
    t ∈ s.trades ∨ ∃ lb, bars.getLast? = some lb ∧ t.timestamp = lb.bar.timestamp := by
  revert ht
  unfold forceClose
  rcases hpos : s.position with _ | p
  · exact fun ht => Or.inl ht
  · rcases hlb : bars.getLast? with _ | lb
    · exact fun ht => Or.inl ht
    · intro ht
      rcases List.mem_append.mp ht with h | h
      · exact Or.inl h
      · refine Or.inr ⟨lb, rfl, ?_⟩
        rw [List.mem_singleton.mp h]
        rfl

/-- C9: the backtest is deterministic — its result is a pure function of
the configuration, symbol and date strings, bar series and initial
balance, and in particular is independent of the wall clock at invocation;
moreover every ledger timestamp is the timestamp of some input bar, never
a reading of real time. -/
theorem C9_deterministic (now₁ now₂ : Int) (cfg : Config) (sym sd ed tf : String)
    (bars : List AugBar) (init : ℚ) :
    backtest now₁ cfg sym sd ed tf bars init = backtest now₂ cfg sym sd ed tf bars init
    ∧ ∀ t ∈ (backtest now₁ cfg sym sd ed tf bars init).trades,
        ∃ b ∈ bars, t.timestamp = b.bar.timestamp := by
  constructor
  · rfl
  · intro t ht
    have htr : (backtest now₁ cfg sym sd ed tf bars init).trades
        = (forceClose sym bars (runBars cfg sym bars
            { balance := init, position := none, trades := [] })).trades := rfl
    rw [htr] at ht
    rcases forceClose_trades_ts sym bars _ t ht with h | ⟨lb, hlb, hts⟩
    · exact runBars_trades_ts cfg sym bars bars _ (fun b hb => hb)
        (fun t' ht' => absurd ht' (List.not_mem_nil t')) t h
    · exact ⟨lb, List.mem_of_getLast?_eq_some hlb, hts⟩

/-- C9 (witness): two runs with different invocation clocks on the
concrete two-bar series coincide, and the buy trade's timestamp is a bar
timestamp. -/
theorem C9_deterministic_witness :
    backtest 3 defaultConfig "BTC/USDT" "s" "e" "15m" exC3w 100
      = backtest 99 defaultConfig "BTC/USDT" "s" "e" "15m" exC3w 100
    ∧ ∃ b ∈ exC3w,
        (⟨1, "BTC/USDT", "buy", 100, 100 * (95 / 100) / 100, 1, "completed"⟩ : Trade).timestamp
          = b.bar.timestamp :=
  ⟨(C9_deterministic 3 99 defaultConfig "BTC/USDT" "s" "e" "15m" exC3w 100).1,
   (C9_deterministic 3 99 defaultConfig "BTC/USDT" "s" "e" "15m" exC3w 100).2 _
     (List.mem_cons_self _ _)⟩

/-- The short or long moving average column is defined exactly from bar
index n-1 on. -/
lemma smaAt_isSome (closes : List ℚ) (n i : Nat) (h : i < closes.length)
    (hn : 1 ≤ n) : (smaAt closes n i).isSome = true ↔ n - 1 ≤ i := by
  unfold smaAt
  split_ifs with hc
  · simp only [Option.isSome_some, true_iff]
    exact hc.2.1
  · exact iff_of_false (by simp) (fun hle => hc ⟨hn, hle, h⟩)

/-- The RSI column is defined exactly from bar index n on. -/
lemma rsiAt_isSome (closes : List ℚ) (n i : Nat) (h : i < closes.length)
    (hn : 1 ≤ n) : (rsiAt closes n i).isSome = true ↔ n ≤ i := by
  unfold rsiAt
  split_ifs with hc
  · simp only [Option.isSome_some, true_iff]
    exact hc.2.1
  · exact iff_of_false (by simp) (fun hle => hc ⟨hn, hle, h⟩)

/-- A row of the augmented DataFrame survives dropna exactly when its
index reaches every indicator's lookback. -/
lemma augAt_isSome (cfg : Config) (bars : List Bar) (i : Nat)
    (h : i < bars.length) (hs : 1 ≤ cfg.short_ma_period)
    (hl : 1 ≤ cfg.long_ma_period) (hr : 1 ≤ cfg.rsi_period) :
    (augAt cfg bars i).isSome = true ↔ dropLookback cfg ≤ i := by
  have hclen : i < (bars.map Bar.close).length := by
    rw [List.length_map]
    exact h
  have hS := smaAt_isSome (bars.map Bar.close) cfg.short_ma_period i hclen hs
  have hL := smaAt_isSome (bars.map Bar.close) cfg.long_ma_period i hclen hl
  have hR := rsiAt_isSome (bars.map Bar.close) cfg.rsi_period i hclen hr
  unfold augAt
  rcases hget : bars.get? i with _ | b
  · exact absurd (List.get?_eq_none.mp hget) (Nat.not_le.mpr h)
  dsimp only [Option.bind]
  rcases hsma : smaAt (bars.map Bar.close) cfg.short_ma_period i with _ | ms
  · rw [hsma] at hS
    refine iff_of_false (by simp) (fun hd => ?_)
    have : cfg.short_ma_period - 1 ≤ i := by
      unfold dropLookback at hd
      omega
    simpa using hS.mpr this
  rcases hsml : smaAt (bars.map Bar.close) cfg.long_ma_period i with _ | ml
  · rw [hsml] at hL
    refine iff_of_false (by simp) (fun hd => ?_)
    have : cfg.long_ma_period - 1 ≤ i := by
      unfold dropLookback at hd
      omega
    simpa using hL.mpr this
  rcases hrsi : rsiAt (bars.map Bar.close) cfg.rsi_period i with _ | r
  · rw [hrsi] at hR
    refine iff_of_false (by simp) (fun hd => ?_)
    have : cfg.rsi_period ≤ i := by
      unfold dropLookback at hd
      omega
    simpa using hR.mpr this
  rw [hsma] at hS
  rw [hsml] at hL
  rw [hrsi] at hR
  split_ifs with hmb
  · simp only [Option.isSome_some, true_iff]
    have h1 : cfg.short_ma_period - 1 ≤ i := hS.mp (by simp)
    have h2 : cfg.long_ma_period - 1 ≤ i := hL.mp (by simp)
    have h3 : cfg.rsi_period ≤ i := hR.mp (by simp)
    have h4 : 26 + 9 - 2 ≤ i := hmb.1.1
    have h5 : 20 - 1 ≤ i := hmb.2.1
    unfold dropLookback
    omega
  · refine iff_of_false (by simp) (fun hd => ?_)
    unfold dropLookback at hd
    exact hmb ⟨⟨by omega, h⟩, by omega, h⟩

/-- C6 (amended): for parameter sets with nonzero periods, a bar index is
kept by add_indicators exactly when it reaches dropLookback = max
(short-1, long-1, rsi, 33, 19): an n-period moving average is already
defined on the n-th bar (index n-1), Wilder RSI needs rsi_period changes
(defined from index rsi_period), and the display-only MACD(12/26/9) and
Bollinger(20) columns force indices 33 and 19 — so the excluded rows are
exactly a prefix, but its length is not max(short, long, rsi) in
general. -/
theorem C6_dropna_cutoff (cfg : Config) (bars : List Bar)
    (hs : 1 ≤ cfg.short_ma_period) (hl : 1 ≤ cfg.long_ma_period)
    (hr : 1 ≤ cfg.rsi_period) :
    (∀ i, i < bars.length →
      ((augAt cfg bars i).isSome = true ↔ dropLookback cfg ≤ i))
    ∧ ∀ a ∈ add_indicators cfg bars,
        ∃ i, dropLookback cfg ≤ i ∧ augAt cfg bars i = some a := by
  constructor
  · exact fun i hi => augAt_isSome cfg bars i hi hs hl hr
  · intro a ha
    rcases List.mem_filterMap.mp ha with ⟨i, hi, hia⟩
    have hilt : i < bars.length := List.mem_range.mp hi
    refine ⟨i, ?_, hia⟩
    exact (augAt_isSome cfg bars i hilt hs hl hr).mp (by rw [hia]; rfl)

/-- Parameter set used to exhibit the off-by-one in the claimed exclusion
prefix: short 35, long 40, rsi 35, so max(short, long, rsi) = 40 while the
true dropped prefix is 39 bars. -/
def cfgC6 : Config :=
  { defaultConfig with short_ma_period := 35, long_ma_period := 40, rsi_period := 35 }

/-- 41 bars with strictly increasing closes 1, 2, ..., 41. -/
def barsC6 : List Bar := (List.range 41).map (fun i => mkBar i ((i : ℚ) + 1))

/-- C6 (counterexample): with periods (35, 40, 35), bar index 39 — inside
the first max(short, long, rsi) = 40 bars, which the claim says are all
excluded — carries complete indicator values and survives dropna: the
output keeps 2 of the 41 bars, not 1. -/
theorem C6_counterexample :
    (augAt cfgC6 barsC6 39).isSome = true
    ∧ 39 < max cfgC6.short_ma_period (max cfgC6.long_ma_period cfgC6.rsi_period)
    ∧ (add_indicators cfgC6 barsC6).length = 2
    ∧ barsC6.length = 41 :=
  ⟨by decide, by decide, by decide, by decide⟩

/-- C6 (witness): the amended characterization instantiated at index 39 of
the 41-bar series. -/
theorem C6_dropna_cutoff_witness :
    (augAt cfgC6 barsC6 39).isSome = true :=
  ((C6_dropna_cutoff cfgC6 barsC6 (by decide) (by decide) (by decide)).1 39
    (by decide)).mpr (by decide)

/-- C10 (witness): instantiated on the empty position table. -/
theorem C10_absent_position_witness :
    check_stop_loss [] "BTC/USDT" 1 = false
    ∧ check_take_profit [] "BTC/USDT" 1 = false
    ∧ update_position [] "BTC/USDT" 1 = .error .positionNotFound
    ∧ remove_position [] "BTC/USDT" = .error .positionNotFound :=
  C10_absent_position [] "BTC/USDT" 1 (by decide)
